import Mathlib

/-
Verification of the data-wrangling pipeline (log cleaner and bug-report ETL).
Shallow embedding of src/01-log-file-cleaner/src/log_cleaner.py and
src/02-bug-report-etl/src/bug_report_etl.py.

Modelling conventions:
* A pandas cell value is a `PyVal`: missing (NaN / None), a string, an
  integer, the not-a-time sentinel NaT, or a parsed instant.  Numeric cells
  are modelled as integers: every numeric comparison appearing in the code
  (bounds 1 and 10000) is exact on the integer-valued data the pipeline
  handles, so float rounding plays no role in any claim.
* Library calls of pandas that are not code of this repository
  (`pd.to_datetime`, `float(...)`) are parameters of the embedding where a
  claim must hold for every behaviour of the library, and small executable
  models (`to_numeric`, `pyStr`) where the claim depends on the documented
  behaviour on the repository's data.
* Stateful methods of the `LogCleaner` class become functions
  `LogState → LogState`; `self.cleaning_log.append(...)` becomes list
  concatenation.  The free-text `description` / `reason` fields and the
  wall-clock `timestamp` of a log entry are omitted from `LogEntry`: no
  claim mentions them.
-/

/-- Model of a pandas scalar cell value. -/
inductive PyVal where
  | vnone
  | vstr (s : String)
  | vint (n : Int)
  | vNaT
  | vinstant (t : Int)
deriving DecidableEq

/-- Model of `pd.isna` on a scalar: missing and NaT are "na". -/
def PyVal.isna : PyVal → Bool
  | PyVal.vnone => true
  | PyVal.vNaT => true
  | _ => false

/-- Model of Python `str(...)` on a cell value (str of NaN is "nan"). -/
def pyStr : PyVal → String
  | PyVal.vnone => "nan"
  | PyVal.vstr s => s
  | PyVal.vint n => toString n
  | PyVal.vNaT => "NaT"
  | PyVal.vinstant t => toString t

/-- Decimal value of a digit list. -/
def digitsToNat (l : List Char) : Nat :=
  l.foldl (fun acc c => acc * 10 + (c.toNat - ('0').toNat)) 0

/-- Parse an optionally signed integer literal from a character list. -/
def parseIntChars : List Char → Option Int
  | [] => none
  | '-' :: rest =>
      if rest ≠ [] && rest.all Char.isDigit then
        some (-(digitsToNat rest : Int))
      else none
  | '+' :: rest =>
      if rest ≠ [] && rest.all Char.isDigit then
        some ((digitsToNat rest : Int))
      else none
  | l =>
      if l.all Char.isDigit then some ((digitsToNat l : Int)) else none

/-- Model of Python `str.strip()` on the character list. -/
def stripChars (l : List Char) : List Char :=
  ((l.dropWhile Char.isWhitespace).reverse.dropWhile Char.isWhitespace).reverse

/-- Model of Python `str.strip()`. -/
def pyStrip (s : String) : String :=
  ⟨stripChars s.data⟩

/-- Model of `pd.to_numeric(x, errors="coerce")` on one cell: integers pass
through, integer-literal strings parse (the repository's numeric columns
are integer-valued), everything else coerces to missing. -/
def to_numeric : PyVal → Option Int
  | PyVal.vint n => some n
  | PyVal.vstr s => parseIntChars (stripChars s.data)
  | _ => none

/-- Re-embed the result of a numeric coercion as a cell value. -/
def ofNumOpt : Option Int → PyVal
  | none => PyVal.vnone
  | some n => PyVal.vint n

/-- The `SEVERITY_MAP` class attribute of `LogCleaner`, as an association
list (12 raw spellings to 4 canonical levels). -/
def SEVERITY_MAP : List (String × String) :=
  [("Critical", "Critical"), ("CRITICAL", "Critical"), ("P1", "Critical"),
   ("High", "High"), ("high", "High"), ("P2", "High"),
   ("Medium", "Medium"), ("med", "Medium"), ("P3", "Medium"),
   ("Low", "Low"), ("LOW", "Low"), ("P4", "Low")]

/-- The `ENVIRONMENT_MAP` class attribute of `LogCleaner`. -/
def ENVIRONMENT_MAP : List (String × String) :=
  [("production", "production"), ("PRODUCTION", "production"), ("prod", "production"),
   ("staging", "staging"), ("Staging", "staging"), ("stg", "staging"),
   ("development", "development"), ("dev", "development"), ("DEV", "development")]

/-- Model of `pandas.Series.map(dict)` applied to one cell: a string that is
a key maps to its value, any other cell (missing, NaT, non-key string,
number) maps to missing. -/
def map_value (m : List (String × String)) : PyVal → PyVal
  | PyVal.vstr s =>
      match m.find? (fun p => p.1 == s) with
      | some p => PyVal.vstr p.2
      | none => PyVal.vnone
  | _ => PyVal.vnone

/-- Keep-first deduplication with an explicit seen set: the recursion behind
`DataFrame.drop_duplicates(keep="first")` under a key function. -/
def dropDupsAux {α κ : Type} [DecidableEq κ] (key : α → κ) :
    List κ → List α → List α
  | _, [] => []
  | seen, x :: xs =>
      if key x ∈ seen then dropDupsAux key seen xs
      else x :: dropDupsAux key (key x :: seen) xs

/-- Model of `DataFrame.drop_duplicates(keep="first")` under a key
function: keep the first record bearing each key value, in input order. -/
def drop_duplicates {α κ : Type} [DecidableEq κ] (key : α → κ)
    (l : List α) : List α :=
  dropDupsAux key [] l

theorem dropDupsAux_sublist {α κ : Type} [DecidableEq κ] (key : α → κ) :
    ∀ (seen : List κ) (l : List α), List.Sublist (dropDupsAux key seen l) l := by
  intro seen l
  induction l generalizing seen with
  | nil => simp [dropDupsAux]
  | cons x xs ih =>
      rw [dropDupsAux]
      by_cases hx : key x ∈ seen
      · rw [if_pos hx]
        exact List.Sublist.cons x (ih seen)
      · rw [if_neg hx]
        exact List.Sublist.cons₂ x (ih (key x :: seen))

theorem dropDupsAux_filter {α κ : Type} [DecidableEq κ] (key : α → κ) (k : κ) :
    ∀ (seen : List κ) (l : List α),
      (dropDupsAux key seen l).filter (fun x => decide (key x = k))
        = if k ∈ seen then []
          else (l.filter (fun x => decide (key x = k))).take 1 := by
  intro seen l
  induction l generalizing seen with
  | nil => simp [dropDupsAux]
  | cons x xs ih =>
      rw [dropDupsAux]
      by_cases hx : key x ∈ seen
      · rw [if_pos hx, ih seen]
        by_cases hk : k ∈ seen
        · simp [hk]
        · have hxk : ¬ (key x = k) := fun he => hk (he ▸ hx)
          simp [hk, List.filter_cons, hxk]
      · rw [if_neg hx]
        by_cases hxk : key x = k
        · have hk : ¬ k ∈ seen := fun hm => hx (hxk ▸ hm)
          have hmem : k ∈ key x :: seen := by
            rw [hxk]
            exact List.mem_cons_self _ _
          rw [if_neg hk, List.filter_cons, List.filter_cons]
          have hp : decide (key x = k) = true := decide_eq_true hxk
          rw [hp, ih (key x :: seen), if_pos hmem]
          simp
        · have h1 : (k ∈ key x :: seen) ↔ (k ∈ seen) := by
            constructor
            · intro hm
              rcases List.mem_cons.mp hm with he | hm
              · exact absurd he.symm hxk
              · exact hm
            · intro hm
              exact List.mem_cons_of_mem _ hm
          simp [List.filter_cons, hxk, ih (key x :: seen), h1]

/-- Result of a successful pandas datetime library call: the not-a-time
sentinel or an instant (an absolute time point). -/
inductive TSVal where
  | NaT
  | instant (t : Int)
deriving DecidableEq

/-- Re-embed a datetime result as a cell value. -/
def TSVal.toPyVal : TSVal → PyVal
  | TSVal.NaT => PyVal.vNaT
  | TSVal.instant t => PyVal.vinstant t

/-- The `_parse_single_timestamp` static method of `LogCleaner`.  The two
library calls are parameters: `ep` models the composite
`pd.to_datetime(float(ts), unit="s")` (`none` when it raises ValueError or
OverflowError, which the code catches), `gp` models the general
`pd.to_datetime(ts)` grammar (`none` when it raises anything, which the
code catches). -/
def _parse_single_timestamp (ep gp : String → Option TSVal) (ts : PyVal) : PyVal :=
  if PyVal.isna ts then PyVal.vNaT
  else
    let s := pyStrip (pyStr ts)
    if s = "INVALID_TIME" then PyVal.vNaT
    else
      match ep s with
      | some v => TSVal.toPyVal v
      | none =>
          match gp s with
          | some v => TSVal.toPyVal v
          | none => PyVal.vNaT

/-- The textual sentinels of `BugReportETL._parse_date`. -/
def DATE_SENTINELS : List String :=
  ["INVALID_DATE", "N/A", "Not Yet", "", "last week", "yesterday"]

/-- The `_parse_date` static method of `BugReportETL`, with the same two
library-call parameters as `_parse_single_timestamp`. -/
def _parse_date (ep gp : String → Option TSVal) (d : PyVal) : PyVal :=
  if PyVal.isna d then PyVal.vNaT
  else
    let s := pyStrip (pyStr d)
    if s ∈ DATE_SENTINELS then PyVal.vNaT
    else
      match ep s with
      | some v => TSVal.toPyVal v
      | none =>
          match gp s with
          | some v => TSVal.toPyVal v
          | none => PyVal.vNaT

/-- Model of the Python regex check
`re.match(r"^\d{1,3}\.\d{1,3}\.\d{1,3}\.\d{1,3}$", ip)` on one group. -/
def ipGroupOk (g : List Char) : Bool :=
  decide (1 ≤ g.length) && decide (g.length ≤ 3) && g.all Char.isDigit

/-- Full-string match of four dot-separated 1-3 digit groups. -/
def ipMatch (s : String) : Bool :=
  let gs := s.split (fun c => c == '.')
  gs.length == 4 && gs.all (fun g => ipGroupOk g.data)

/-- The `_clean_single_ip` static method of `LogCleaner`. -/
def _clean_single_ip (ip : PyVal) : PyVal :=
  if PyVal.isna ip then PyVal.vnone
  else
    let s := pyStrip (pyStr ip)
    if s = "INVALID_IP" || s = "0.0.0.0" || s = "" then PyVal.vnone
    else if ipMatch s then PyVal.vstr s
    else PyVal.vnone

/-- Model of Python `str.isdigit` on ASCII data: nonempty, all digits. -/
def isDigitStr (s : String) : Bool :=
  decide (1 ≤ s.length) && s.data.all Char.isDigit

/-- The `_clean_single_user_id` static method of `LogCleaner`. -/
def _clean_single_user_id (uid : PyVal) : PyVal :=
  if PyVal.isna uid then PyVal.vnone
  else
    let s := pyStrip (pyStr uid)
    if s = "UNKNOWN" || s = "" || s = "nan" then PyVal.vnone
    else if String.isPrefixOf "USR-" s then PyVal.vstr s
    else if isDigitStr s then PyVal.vstr ("USR-" ++ s)
    else PyVal.vnone

/-- One row of the server-log table: the columns the cleaning stages
touch. -/
structure LogRow where
  severity : PyVal
  environment : PyVal
  timestamp : PyVal
  response_time_ms : PyVal
  ip_address : PyVal
  user_id : PyVal
  module : PyVal
deriving DecidableEq

/-- One entry of `self.cleaning_log` (free-text and wall-clock fields
omitted; see the file header). -/
structure LogEntry where
  step : Nat
  rows_before : Nat
  rows_after : Nat
  rows_affected : Nat
deriving DecidableEq

/-- The mutable state of a `LogCleaner` instance. -/
structure LogState where
  raw_data : List LogRow
  clean_data : List LogRow
  cleaning_log : List LogEntry
deriving DecidableEq

/-- A fresh `LogCleaner(data=raw)` whose `clean_data` was just set from
`raw_data` (as `run_full_pipeline` does before its first stage). -/
def mkLogState (raw : List LogRow) : LogState :=
  { raw_data := raw, clean_data := raw, cleaning_log := [] }

/-- The `remove_duplicates` method: whole-record keep-first dedup, logged
as step 1. -/
def remove_duplicates (s : LogState) : LogState :=
  let rows_before := s.clean_data.length
  let cleaned := drop_duplicates (fun r => r) s.clean_data
  { s with
    clean_data := cleaned,
    cleaning_log := s.cleaning_log ++
      [{ step := 1, rows_before := rows_before, rows_after := cleaned.length,
         rows_affected := rows_before - cleaned.length }] }

/-- The `standardize_severity` method: map the severity column through
`SEVERITY_MAP`, logged as step 2 with `rows_affected` the count of
originally non-null severities. -/
def standardize_severity (s : LogState) : LogState :=
  let rows_before := s.clean_data.length
  let affected := s.clean_data.countP (fun r => ! PyVal.isna r.severity)
  let cleaned := s.clean_data.map
    (fun r => { r with severity := map_value SEVERITY_MAP r.severity })
  { s with
    clean_data := cleaned,
    cleaning_log := s.cleaning_log ++
      [{ step := 2, rows_before := rows_before, rows_after := cleaned.length,
         rows_affected := affected }] }

/-- The `standardize_environment` method, logged as step 3. -/
def standardize_environment (s : LogState) : LogState :=
  let rows_before := s.clean_data.length
  let affected := s.clean_data.countP (fun r => ! PyVal.isna r.environment)
  let cleaned := s.clean_data.map
    (fun r => { r with environment := map_value ENVIRONMENT_MAP r.environment })
  { s with
    clean_data := cleaned,
    cleaning_log := s.cleaning_log ++
      [{ step := 3, rows_before := rows_before, rows_after := cleaned.length,
         rows_affected := affected }] }

/-- The `standardize_timestamps` method, logged as step 4 with
`rows_affected = rows_before` (the full row count). -/
def standardize_timestamps (ep gp : String → Option TSVal) (s : LogState) : LogState :=
  let rows_before := s.clean_data.length
  let cleaned := s.clean_data.map
    (fun r => { r with timestamp := _parse_single_timestamp ep gp r.timestamp })
  { s with
    clean_data := cleaned,
    cleaning_log := s.cleaning_log ++
      [{ step := 4, rows_before := rows_before, rows_after := cleaned.length,
         rows_affected := rows_before }] }

/-- The invalid mask of `clean_response_time` on one coerced cell:
pandas comparisons on NaN are false, so a failed coercion is never
masked. -/
def rangeBad (lo hi : Int) : Option Int → Bool
  | none => false
  | some v => decide (v < lo) || decide (hi < v)

/-- The `clean_response_time` method (defaults `min_valid=1`,
`max_valid=10000`): coerce the column to numeric, null the values the
invalid mask selects, logged as step 5 with `rows_affected` the mask
count. -/
def clean_response_time (lo hi : Int) (s : LogState) : LogState :=
  let invalid_count := s.clean_data.countP
    (fun r => rangeBad lo hi (to_numeric r.response_time_ms))
  let cleaned := s.clean_data.map
    (fun r => { r with response_time_ms :=
        (if rangeBad lo hi (to_numeric r.response_time_ms) then PyVal.vnone
         else ofNumOpt (to_numeric r.response_time_ms)) })
  { s with
    clean_data := cleaned,
    cleaning_log := s.cleaning_log ++
      [{ step := 5, rows_before := cleaned.length, rows_after := cleaned.length,
         rows_affected := invalid_count }] }

/-- The `clean_ip_addresses` method, logged as step 6 with
`rows_affected` the growth of the missing count. -/
def clean_ip_addresses (s : LogState) : LogState :=
  let before_missing := s.clean_data.countP (fun r => PyVal.isna r.ip_address)
  let cleaned := s.clean_data.map
    (fun r => { r with ip_address := _clean_single_ip r.ip_address })
  let after_missing := cleaned.countP (fun r => PyVal.isna r.ip_address)
  { s with
    clean_data := cleaned,
    cleaning_log := s.cleaning_log ++
      [{ step := 6, rows_before := cleaned.length, rows_after := cleaned.length,
         rows_affected := after_missing - before_missing }] }

/-- The `clean_user_ids` method, logged as step 7. -/
def clean_user_ids (s : LogState) : LogState :=
  let before_missing := s.clean_data.countP (fun r => PyVal.isna r.user_id)
  let cleaned := s.clean_data.map
    (fun r => { r with user_id := _clean_single_user_id r.user_id })
  let after_missing := cleaned.countP (fun r => PyVal.isna r.user_id)
  { s with
    clean_data := cleaned,
    cleaning_log := s.cleaning_log ++
      [{ step := 7, rows_before := cleaned.length, rows_after := cleaned.length,
         rows_affected := after_missing - before_missing }] }

/-- The `fillna` of one categorical cell with a default label. -/
def fillna (default : String) (x : PyVal) : PyVal :=
  if PyVal.isna x then PyVal.vstr default else x

/-- The `fill_missing_categories` method: fill severity, module and
environment with their sentinel labels, logged as step 8 with
`rows_affected` the count of cells equal to a sentinel AFTER filling. -/
def fill_missing_categories (s : LogState) : LogState :=
  let d1 := s.clean_data.map (fun r => { r with severity := fillna "Unknown" r.severity })
  let d2 := d1.map (fun r => { r with module := fillna "unknown-module" r.module })
  let d3 := d2.map (fun r => { r with environment := fillna "unknown" r.environment })
  let affected :=
    d3.countP (fun r => r.severity == PyVal.vstr "Unknown")
    + d3.countP (fun r => r.module == PyVal.vstr "unknown-module")
    + d3.countP (fun r => r.environment == PyVal.vstr "unknown")
  { s with
    clean_data := d3,
    cleaning_log := s.cleaning_log ++
      [{ step := 8, rows_before := d3.length, rows_after := d3.length,
         rows_affected := affected }] }

/-- The `run_full_pipeline` method: copy `raw_data` into `clean_data`,
then run the eight stages in source order. -/
def run_full_pipeline (ep gp : String → Option TSVal) (s : LogState) : LogState :=
  fill_missing_categories
    (clean_user_ids
      (clean_ip_addresses
        (clean_response_time 1 10000
          (standardize_timestamps ep gp
            (standardize_environment
              (standardize_severity
                (remove_duplicates
                  { s with clean_data := s.raw_data })))))))

/-- Substring containment on character lists: `containsSub needle hay`
models Python `needle in hay`. -/
def containsSub (needle : List Char) : List Char → Bool
  | [] => List.isPrefixOf needle []
  | c :: t => List.isPrefixOf needle (c :: t) || containsSub needle t

/-- Model of Python `needle in hay` on strings. -/
def strIn (needle hay : String) : Bool :=
  containsSub needle.data hay.data

/-- Lowercase one ASCII character. -/
def lowerChar (c : Char) : Char :=
  if c.isUpper then Char.ofNat (c.toNat + 32) else c

/-- Model of Python `str.lower()` (ASCII case folding; every keyword the
code matches is ASCII). -/
def pyLower (s : String) : String :=
  ⟨s.data.map lowerChar⟩

/-- The scanning loop of `extract_priority_from_labels` in
`BugReportETL._transform_github`: walk the labels in order, return on the
first label containing a keyword, checking "critical" then "high" then
"low" on that label. -/
def extractFirstKeyword : List String → Option String
  | [] => none
  | l :: rest =>
      if strIn "critical" (pyLower l) then some "Critical"
      else if strIn "high" (pyLower l) then some "High"
      else if strIn "low" (pyLower l) then some "Low"
      else extractFirstKeyword rest

/-- The `extract_priority_from_labels` helper of
`BugReportETL._transform_github` (the non-list and None guard of the
source is outside the model's domain, which is lists of strings). -/
def extract_priority_from_labels (labels : List String) : Option String :=
  match extractFirstKeyword labels with
  | some p => some p
  | none =>
      if labels.any (fun l => pyLower l == "bug") then some "Medium"
      else none

/-- Written from the spec sentence amended for claim C2: the first label
(in list order) containing any of the three keywords decides the priority,
with the precedence critical over high over low applied inside that one
label; only when no label contains a keyword does a label case-folding to
"bug" give Medium, else the priority is missing. -/
def priority_of_first_keyword_label (labels : List String) : Option String :=
  match labels.find? (fun l =>
      strIn "critical" (pyLower l) || strIn "high" (pyLower l)
        || strIn "low" (pyLower l)) with
  | some l =>
      if strIn "critical" (pyLower l) then some "Critical"
      else if strIn "high" (pyLower l) then some "High"
      else some "Low"
  | none =>
      if labels.any (fun l => pyLower l == "bug") then some "Medium"
      else none

/-- One record of the unified bug-report schema built by
`transform_and_unify` (the 16 target fields). -/
structure BugRecord where
  source : PyVal
  ticket_id : PyVal
  title : PyVal
  description : PyVal
  priority : PyVal
  status : PyVal
  component : PyVal
  reporter : PyVal
  assignee : PyVal
  environment : PyVal
  sdlc_phase : PyVal
  created_date : PyVal
  resolved_date : PyVal
  time_spent_minutes : PyVal
  browser : PyVal
  os : PyVal
deriving DecidableEq

/-- The dedup key of `BugReportETL.clean_duplicates`:
`subset=["ticket_id", "title", "source"]`. -/
def bugKey (r : BugRecord) : PyVal × PyVal × PyVal :=
  (r.ticket_id, r.title, r.source)

/-- The `clean_duplicates` method of `BugReportETL`:
`drop_duplicates(subset=["ticket_id", "title", "source"], keep="first")`. -/
def clean_duplicates (l : List BugRecord) : List BugRecord :=
  drop_duplicates bugKey l

/-- A log row whose cells are all missing: the base point for concrete
test rows. -/
def baseRow : LogRow :=
  { severity := PyVal.vnone, environment := PyVal.vnone,
    timestamp := PyVal.vnone, response_time_ms := PyVal.vnone,
    ip_address := PyVal.vnone, user_id := PyVal.vnone,
    module := PyVal.vnone }

/-- A log row holding one response-time cell. -/
def rtRow (x : PyVal) : LogRow :=
  { baseRow with response_time_ms := x }

/-- A log row holding one severity cell. -/
def sevRow (x : PyVal) : LogRow :=
  { baseRow with severity := x }

/-- An epoch parser for witnesses: accepts exactly the string
"1705312200" as epoch seconds. -/
def epWitness : String → Option TSVal :=
  fun s => if s = "1705312200" then some (TSVal.instant 1705312200) else none

/-- A general date parser for witnesses: parses nothing. -/
def gpWitness : String → Option TSVal :=
  fun _ => none

theorem countP_or_split {α : Type} (p q : α → Bool) :
    ∀ l : List α, (∀ x ∈ l, ¬(p x = true ∧ q x = true)) →
      l.countP (fun x => p x || q x) = l.countP p + l.countP q := by
  intro l
  induction l with
  | nil => intro _; rfl
  | cons x xs ih =>
      intro h
      have hx := h x (List.mem_cons_self _ _)
      have hxs := fun y hy => h y (List.mem_cons_of_mem _ hy)
      rw [List.countP_cons, List.countP_cons, List.countP_cons, ih hxs]
      cases hp : p x <;> cases hq : q x <;> simp [hp, hq] at hx ⊢ <;> omega

theorem forall₂_map_self {α β : Type} (f : α → β) (R : α → β → Prop)
    (h : ∀ a, R a (f a)) : ∀ l : List α, List.Forall₂ R l (l.map f) := by
  intro l
  induction l with
  | nil => exact List.Forall₂.nil
  | cons x xs ih => exact List.Forall₂.cons (h x) ih

theorem find?_assoc_of_mem (m : List (String × String))
    (hnd : (m.map Prod.fst).Nodup) (s c : String) (hm : (s, c) ∈ m) :
    m.find? (fun p => p.1 == s) = some (s, c) := by
  induction m with
  | nil => cases hm
  | cons hd tl ih =>
      obtain ⟨a, b⟩ := hd
      rw [List.map_cons, List.nodup_cons] at hnd
      rcases List.mem_cons.mp hm with he | hmt
      · rw [← he, List.find?_cons]
        simp
      · have hs : s ∈ tl.map Prod.fst :=
          List.mem_map.mpr ⟨(s, c), hmt, rfl⟩
        have ha : ¬ (a = s) := fun he2 => hnd.1 (he2 ▸ hs)
        rw [List.find?_cons]
        have hb : ((a, b).1 == s) = false := by
          simp [ha]
        simp only [hb, cond_false]
        exact ih hnd.2 hmt

theorem countP_coerced (lo hi : Int) : ∀ l : List LogRow,
    l.countP (fun r => rangeBad lo hi (to_numeric r.response_time_ms))
      = ((l.map (fun r => to_numeric r.response_time_ms)).filterMap id).countP
          (fun v => decide (v < lo) || decide (hi < v)) := by
  intro l
  induction l with
  | nil => rfl
  | cons x xs ih =>
      cases hx : to_numeric x.response_time_ms with
      | none =>
          rw [List.countP_cons, List.map_cons, hx]
          have h1 : rangeBad lo hi none = false := rfl
          rw [h1, List.filterMap_cons_none]
          · simpa using ih
          · rfl
      | some v =>
          rw [List.countP_cons, List.map_cons, hx]
          have h1 : rangeBad lo hi (some v)
              = (decide (v < lo) || decide (hi < v)) := rfl
          rw [h1, List.filterMap_cons_some (show id (some v) = some v from rfl),
              List.countP_cons, ih]

theorem fillna_eq_sentinel (lbl : String) (x : PyVal) :
    (fillna lbl x == PyVal.vstr lbl) = (PyVal.isna x || (x == PyVal.vstr lbl)) := by
  cases x <;> simp [fillna, PyVal.isna]

theorem toPyVal_shape (v : TSVal) :
    TSVal.toPyVal v = PyVal.vNaT ∨ ∃ t, TSVal.toPyVal v = PyVal.vinstant t := by
  cases v with
  | NaT => exact Or.inl rfl
  | instant t => exact Or.inr ⟨t, rfl⟩

theorem parse_single_shape (ep gp : String → Option TSVal) (ts : PyVal) :
    _parse_single_timestamp ep gp ts = PyVal.vNaT
      ∨ ∃ t, _parse_single_timestamp ep gp ts = PyVal.vinstant t := by
  by_cases hna : PyVal.isna ts = true
  · left
    simp [_parse_single_timestamp, hna]
  · by_cases ht : pyStrip (pyStr ts) = "INVALID_TIME"
    · left
      simp [_parse_single_timestamp, hna, ht]
    · cases hep : ep (pyStrip (pyStr ts)) with
      | some v =>
          have : _parse_single_timestamp ep gp ts = TSVal.toPyVal v := by
            simp [_parse_single_timestamp, hna, ht, hep]
          rw [this]
          exact toPyVal_shape v
      | none =>
          cases hgp : gp (pyStrip (pyStr ts)) with
          | some v =>
              have : _parse_single_timestamp ep gp ts = TSVal.toPyVal v := by
                simp [_parse_single_timestamp, hna, ht, hep, hgp]
              rw [this]
              exact toPyVal_shape v
          | none =>
              left
              simp [_parse_single_timestamp, hna, ht, hep, hgp]

theorem parse_date_shape (ep gp : String → Option TSVal) (d : PyVal) :
    _parse_date ep gp d = PyVal.vNaT
      ∨ ∃ t, _parse_date ep gp d = PyVal.vinstant t := by
  by_cases hna : PyVal.isna d = true
  · left
    simp [_parse_date, hna]
  · by_cases ht : pyStrip (pyStr d) ∈ DATE_SENTINELS
    · left
      simp [_parse_date, hna, ht]
    · cases hep : ep (pyStrip (pyStr d)) with
      | some v =>
          have : _parse_date ep gp d = TSVal.toPyVal v := by
            simp [_parse_date, hna, ht, hep]
          rw [this]
          exact toPyVal_shape v
      | none =>
          cases hgp : gp (pyStrip (pyStr d)) with
          | some v =>
              have : _parse_date ep gp d = TSVal.toPyVal v := by
                simp [_parse_date, hna, ht, hep, hgp]
              rw [this]
              exact toPyVal_shape v
          | none =>
              left
              simp [_parse_date, hna, ht, hep, hgp]

theorem extractFirstKeyword_eq_find (labels : List String) :
    extractFirstKeyword labels
      = match labels.find? (fun l =>
            strIn "critical" (pyLower l) || strIn "high" (pyLower l)
              || strIn "low" (pyLower l)) with
        | some l =>
            if strIn "critical" (pyLower l) then some "Critical"
            else if strIn "high" (pyLower l) then some "High"
            else some "Low"
        | none => none := by
  induction labels with
  | nil => rfl
  | cons l rest ih =>
      by_cases hc : strIn "critical" (pyLower l) = true
      · simp [extractFirstKeyword, List.find?_cons, hc]
      · by_cases hh : strIn "high" (pyLower l) = true
        · simp [extractFirstKeyword, List.find?_cons, hc, hh]
        · by_cases hl : strIn "low" (pyLower l) = true
          · simp [extractFirstKeyword, List.find?_cons, hc, hh, hl]
          · simp [extractFirstKeyword, List.find?_cons, hc, hh, hl, ih]

/-- Additional concrete rows and counts used by the claims below. -/
def missing_category_count (d : List LogRow) : Nat :=
  d.countP (fun r => PyVal.isna r.severity)
  + d.countP (fun r => PyVal.isna r.module)
  + d.countP (fun r => PyVal.isna r.environment)

/-- Count of cells already equal to their fill sentinel (per field). -/
def sentinel_category_count (d : List LogRow) : Nat :=
  d.countP (fun r => r.severity == PyVal.vstr "Unknown")
  + d.countP (fun r => r.module == PyVal.vstr "unknown-module")
  + d.countP (fun r => r.environment == PyVal.vstr "unknown")

/-- A row with a present severity, a module already equal to the fill
sentinel, and a present environment: nothing is missing. -/
def fillCExRow : LogRow :=
  { baseRow with
    severity := PyVal.vstr "Critical",
    module := PyVal.vstr "unknown-module",
    environment := PyVal.vstr "production" }

/-- The six rows of spec Scenario A: severities Critical, CRITICAL, P1,
high, med, med, with the last two rows exact whole-record duplicates. -/
def scenarioA : List LogRow :=
  [sevRow (PyVal.vstr "Critical"), sevRow (PyVal.vstr "CRITICAL"),
   sevRow (PyVal.vstr "P1"), sevRow (PyVal.vstr "high"),
   sevRow (PyVal.vstr "med"), sevRow (PyVal.vstr "med")]

/-- Claim C1, counterexample: with the default bounds, the Numeric Range
Validator KEEPS a response time exactly equal to 10000 as a non-missing
value (the mask is `v < 1 or v > 10000`), while the claim says a value
exactly equal to 10000 becomes missing. -/
theorem C1_counterexample :
    (clean_response_time 1 10000 (mkLogState [rtRow (PyVal.vint 10000)])).clean_data.map
        (fun r => r.response_time_ms) = [PyVal.vint 10000]
    ∧ PyVal.isna (PyVal.vint 10000) = false
    ∧ ¬ ((10000 : Int) < 10000) := by
  refine ⟨by decide, by decide, by decide⟩

/-- Claim C1 as amended: after `clean_response_time` with its default
bounds min=1, max=10000, every non-missing value v remaining in the
response_time_ms field satisfies 1 ≤ v ≤ 10000 — the bound is inclusive
at BOTH ends: a value exactly equal to 10000 is retained, and a value
exactly equal to 1 is retained. -/
theorem C1_range_inclusive :
    (∀ (st : LogState) (r : LogRow) (v : Int),
        r ∈ (clean_response_time 1 10000 st).clean_data →
        r.response_time_ms = PyVal.vint v → 1 ≤ v ∧ v ≤ 10000)
    ∧ (clean_response_time 1 10000 (mkLogState [rtRow (PyVal.vint 10000)])).clean_data
        = [rtRow (PyVal.vint 10000)]
    ∧ (clean_response_time 1 10000 (mkLogState [rtRow (PyVal.vint 1)])).clean_data
        = [rtRow (PyVal.vint 1)] := by
  refine ⟨?_, by decide, by decide⟩
  intro st r v hr hv
  simp only [clean_response_time, List.mem_map] at hr
  obtain ⟨a, _, rfl⟩ := hr
  simp only at hv
  by_cases hb : rangeBad 1 10000 (to_numeric a.response_time_ms) = true
  · rw [if_pos hb] at hv
    cases hv
  · rw [if_neg hb] at hv
    cases hx : to_numeric a.response_time_ms with
    | none =>
        rw [hx] at hv
        cases hv
    | some w =>
        rw [hx] at hv
        have hw : w = v := by
          cases hv
          rfl
        rw [hx] at hb
        have hb2 : ¬ (decide (w < 1) || decide (10000 < w)) = true := hb
        simp only [Bool.or_eq_true, decide_eq_true_eq, not_or] at hb2
        omega

/-- Claim C1, witness: the general bound statement applied to the
one-row dataset holding the value 5. -/
theorem C1_witness : 1 ≤ (5 : Int) ∧ (5 : Int) ≤ 10000 :=
  C1_range_inclusive.1 (mkLogState [rtRow (PyVal.vint 5)])
    (rtRow (PyVal.vint 5)) 5 (by decide) (by decide)

/-- Claim C2, counterexample: the labels ["low", "critical"] contain a
label with "critical", yet `extract_priority_from_labels` returns Low,
not Critical: the loop returns on the FIRST label containing any
keyword, so keyword precedence does not hold across label positions. -/
theorem C2_counterexample :
    (["low", "critical"] : List String).any
        (fun l => strIn "critical" (pyLower l)) = true
    ∧ extract_priority_from_labels ["low", "critical"] = some "Low"
    ∧ (some "Low" : Option String) ≠ some "Critical" := by
  refine ⟨by decide, by decide, by decide⟩

/-- Claim C2 as amended: the GitHub priority derivation scans the labels
in list order and the FIRST label containing any of the keywords
"critical", "high", "low" (case-insensitively) decides the priority, the
precedence critical over high over low applying only inside that one
label; when no label contains a keyword, a label case-folding to "bug"
gives Medium, and otherwise the priority is missing. -/
theorem C2_first_label_priority :
    ∀ labels : List String,
      extract_priority_from_labels labels
        = priority_of_first_keyword_label labels := by
  intro labels
  rw [extract_priority_from_labels, priority_of_first_keyword_label,
      extractFirstKeyword_eq_find]
  cases h : labels.find? (fun l =>
      strIn "critical" (pyLower l) || strIn "high" (pyLower l)
        || strIn "low" (pyLower l)) with
  | none => rfl
  | some l =>
      by_cases hc : strIn "critical" (pyLower l) = true
      · simp [hc]
      · by_cases hh : strIn "high" (pyLower l) = true
        · simp [hc, hh]
        · simp [hc, hh]

/-- Claim C3: `standardize_severity` maps each non-null severity that is a
key of `SEVERITY_MAP` to its canonical value, each non-null value absent
from the map to missing, leaves null null, and its log entry's
`rows_affected` counts the originally non-null severities regardless of
mapping success. -/
theorem C3_severity_normalizer :
    (∀ s c : String, (s, c) ∈ SEVERITY_MAP →
        map_value SEVERITY_MAP (PyVal.vstr s) = PyVal.vstr c)
    ∧ (∀ s : String, (∀ c, (s, c) ∉ SEVERITY_MAP) →
        map_value SEVERITY_MAP (PyVal.vstr s) = PyVal.vnone)
    ∧ map_value SEVERITY_MAP PyVal.vnone = PyVal.vnone
    ∧ (∀ st : LogState,
        List.Forall₂ (fun r r2 => r2.severity = map_value SEVERITY_MAP r.severity)
          st.clean_data (standardize_severity st).clean_data)
    ∧ (∀ st : LogState, ∃ e : LogEntry,
        (standardize_severity st).cleaning_log = st.cleaning_log ++ [e]
        ∧ e.rows_affected
            = st.clean_data.countP (fun r => ! PyVal.isna r.severity)) := by
  refine ⟨?_, ?_, rfl, ?_, ?_⟩
  · intro s c hm
    have h := find?_assoc_of_mem SEVERITY_MAP (by decide) s c hm
    simp [map_value, h]
  · intro s h
    have hn : SEVERITY_MAP.find? (fun p => p.1 == s) = none := by
      rw [List.find?_eq_none]
      intro p hp hps
      have : p.1 = s := by
        exact beq_iff_eq.mp hps
      exact h p.2 (by
        have hp2 : p = (s, p.2) := by
          rw [← this]
        rw [← hp2]
        exact hp)
    simp [map_value, hn]
  · intro st
    exact forall₂_map_self
      (fun r => { r with severity := map_value SEVERITY_MAP r.severity })
      (fun r r2 => r2.severity = map_value SEVERITY_MAP r.severity)
      (fun a => rfl) st.clean_data
  · intro st
    exact ⟨_, rfl, rfl⟩

/-- Claim C3, witness: the raw spelling P1 is a key of the map and is
normalized to Critical. -/
theorem C3_witness :
    map_value SEVERITY_MAP (PyVal.vstr "P1") = PyVal.vstr "Critical" :=
  C3_severity_normalizer.1 "P1" "Critical" (by decide)

/-- Claim C4: the timestamp parsing cascade is total and typed — for every
behaviour of the two (caught) library calls and every input value, the
result is the not-a-time sentinel or an instant, never the raw string;
null and NaT inputs and the textual sentinels give not-a-time; a value the
epoch-seconds step parses is converted there, independently of the general
date grammar; a value neither step parses degrades to not-a-time.  The
same holds of the ETL's `_parse_date` with its sentinel list (which
contains the empty string). -/
theorem C4_timestamp_cascade :
    (∀ (ep gp : String → Option TSVal) (ts : PyVal),
        _parse_single_timestamp ep gp ts = PyVal.vNaT
          ∨ ∃ t, _parse_single_timestamp ep gp ts = PyVal.vinstant t)
    ∧ (∀ ep gp : String → Option TSVal,
        _parse_single_timestamp ep gp PyVal.vnone = PyVal.vNaT
        ∧ _parse_single_timestamp ep gp PyVal.vNaT = PyVal.vNaT)
    ∧ (∀ (ep gp : String → Option TSVal) (s : String),
        pyStrip s = "INVALID_TIME" →
        _parse_single_timestamp ep gp (PyVal.vstr s) = PyVal.vNaT)
    ∧ (∀ (ep gp gp2 : String → Option TSVal) (s : String) (v : TSVal),
        pyStrip s ≠ "INVALID_TIME" → ep (pyStrip s) = some v →
        _parse_single_timestamp ep gp (PyVal.vstr s) = TSVal.toPyVal v
        ∧ _parse_single_timestamp ep gp (PyVal.vstr s)
            = _parse_single_timestamp ep gp2 (PyVal.vstr s))
    ∧ (∀ (ep gp : String → Option TSVal) (s : String),
        ep (pyStrip s) = none → gp (pyStrip s) = none →
        _parse_single_timestamp ep gp (PyVal.vstr s) = PyVal.vNaT)
    ∧ (∀ (ep gp : String → Option TSVal) (d : PyVal),
        _parse_date ep gp d = PyVal.vNaT
          ∨ ∃ t, _parse_date ep gp d = PyVal.vinstant t)
    ∧ (∀ ep gp : String → Option TSVal,
        _parse_date ep gp PyVal.vnone = PyVal.vNaT)
    ∧ (∀ (ep gp : String → Option TSVal) (s : String),
        pyStrip s ∈ DATE_SENTINELS →
        _parse_date ep gp (PyVal.vstr s) = PyVal.vNaT)
    ∧ (∀ (ep gp : String → Option TSVal) (s : String),
        pyStrip s ∉ DATE_SENTINELS → ep (pyStrip s) = none → gp (pyStrip s) = none →
        _parse_date ep gp (PyVal.vstr s) = PyVal.vNaT) := by
  refine ⟨parse_single_shape, ?_, ?_, ?_, ?_, parse_date_shape, ?_, ?_, ?_⟩
  · intro ep gp
    exact ⟨rfl, rfl⟩
  · intro ep gp s ht
    simp [_parse_single_timestamp, PyVal.isna, pyStr, ht]
  · intro ep gp gp2 s v ht hep
    constructor
    · simp [_parse_single_timestamp, PyVal.isna, pyStr, ht, hep]
    · simp [_parse_single_timestamp, PyVal.isna, pyStr, ht, hep]
  · intro ep gp s hep hgp
    simp [_parse_single_timestamp, PyVal.isna, pyStr, hep, hgp]
  · intro ep gp
    rfl
  · intro ep gp s ht
    simp [_parse_date, PyVal.isna, pyStr, ht]
  · intro ep gp s ht hep hgp
    simp [_parse_date, PyVal.isna, pyStr, ht, hep, hgp]

/-- Claim C4, witness: a concrete epoch parser accepting exactly
"1705312200" converts the padded raw string " 1705312200 " to the instant
1705312200 without consulting the general grammar. -/
theorem C4_witness :
    _parse_single_timestamp epWitness gpWitness (PyVal.vstr " 1705312200 ")
      = PyVal.vinstant 1705312200 :=
  (C4_timestamp_cascade.2.2.2.1 epWitness gpWitness gpWitness
    " 1705312200 " (TSVal.instant 1705312200) (by decide) (by decide)).1

/-- Claim C5: for any dataset and either dedup policy of the repository
(whole-record for the log cleaner, the composite key (ticket_id, title,
source) for the ETL), deduplication returns a sublist of the input (so
survivors keep their relative order) and, for every key value, the
surviving records with that key are exactly the first record of the input
bearing it. -/
theorem C5_dedup_first_seen :
    (∀ st : LogState,
        (remove_duplicates st).clean_data
          = drop_duplicates (fun r => r) st.clean_data)
    ∧ (∀ (l : List LogRow) (k : LogRow),
        List.Sublist (drop_duplicates (fun r => r) l) l
        ∧ (drop_duplicates (fun r => r) l).filter (fun x => decide (x = k))
            = (l.filter (fun x => decide (x = k))).take 1)
    ∧ (∀ (l : List BugRecord) (k : PyVal × PyVal × PyVal),
        List.Sublist (clean_duplicates l) l
        ∧ (clean_duplicates l).filter (fun x => decide (bugKey x = k))
            = (l.filter (fun x => decide (bugKey x = k))).take 1) := by
  refine ⟨fun st => rfl, ?_, ?_⟩
  · intro l k
    constructor
    · exact dropDupsAux_sublist (fun r => r) [] l
    · have h := dropDupsAux_filter (fun r => r) k [] l
      simpa [drop_duplicates] using h
  · intro l k
    constructor
    · exact dropDupsAux_sublist bugKey [] l
    · have h := dropDupsAux_filter bugKey k [] l
      simpa [clean_duplicates, drop_duplicates] using h

/-- Claim C6: within one execution of `run_full_pipeline` on a fresh
cleaner, the lineage log's step values are exactly 1..8 (increasing by 1
from 1); every stage only appends one entry to the existing log, never
mutating or removing prior entries; and `rows_after` of each entry equals
`rows_before` of the next (proved for ALL consecutive pairs, which covers
in particular the pairs of row-preserving stages the claim names). -/
theorem C6_lineage_monotone :
    ∀ (ep gp : String → Option TSVal) (raw : List LogRow),
      ((run_full_pipeline ep gp (mkLogState raw)).cleaning_log.map LogEntry.step
          = [1, 2, 3, 4, 5, 6, 7, 8])
      ∧ List.Chain' (fun a b => a.rows_after = b.rows_before)
          (run_full_pipeline ep gp (mkLogState raw)).cleaning_log
      ∧ (∀ s : LogState, ∃ e, (remove_duplicates s).cleaning_log
          = s.cleaning_log ++ [e])
      ∧ (∀ s : LogState, ∃ e, (standardize_severity s).cleaning_log
          = s.cleaning_log ++ [e])
      ∧ (∀ s : LogState, ∃ e, (standardize_environment s).cleaning_log
          = s.cleaning_log ++ [e])
      ∧ (∀ s : LogState, ∃ e, (standardize_timestamps ep gp s).cleaning_log
          = s.cleaning_log ++ [e])
      ∧ (∀ (s : LogState) (lo hi : Int), ∃ e,
          (clean_response_time lo hi s).cleaning_log = s.cleaning_log ++ [e])
      ∧ (∀ s : LogState, ∃ e, (clean_ip_addresses s).cleaning_log
          = s.cleaning_log ++ [e])
      ∧ (∀ s : LogState, ∃ e, (clean_user_ids s).cleaning_log
          = s.cleaning_log ++ [e])
      ∧ (∀ s : LogState, ∃ e, (fill_missing_categories s).cleaning_log
          = s.cleaning_log ++ [e]) := by
  intro ep gp raw
  refine ⟨?_, ?_, fun s => ⟨_, rfl⟩, fun s => ⟨_, rfl⟩, fun s => ⟨_, rfl⟩,
    fun s => ⟨_, rfl⟩, fun s lo hi => ⟨_, rfl⟩, fun s => ⟨_, rfl⟩,
    fun s => ⟨_, rfl⟩, fun s => ⟨_, rfl⟩⟩
  · simp [run_full_pipeline, mkLogState, remove_duplicates,
      standardize_severity, standardize_environment, standardize_timestamps,
      clean_response_time, clean_ip_addresses, clean_user_ids,
      fill_missing_categories]
  · simp [run_full_pipeline, mkLogState, remove_duplicates,
      standardize_severity, standardize_environment, standardize_timestamps,
      clean_response_time, clean_ip_addresses, clean_user_ids,
      fill_missing_categories, List.chain'_cons, List.length_map]

/-- Claim C7, counterexample: on the one-cell column "N/A" (originally
non-null), coercion fails and the value becomes missing, yet the stage's
log entry records rows_affected = 0 — coercion failures are NOT included
in the count, contrary to the claim. -/
theorem C7_counterexample :
    (clean_response_time 1 10000 (mkLogState [rtRow (PyVal.vstr "N/A")])).cleaning_log
        = [{ step := 5, rows_before := 1, rows_after := 1, rows_affected := 0 }]
    ∧ (clean_response_time 1 10000 (mkLogState [rtRow (PyVal.vstr "N/A")])).clean_data.map
        (fun r => r.response_time_ms) = [PyVal.vnone]
    ∧ PyVal.isna (PyVal.vstr "N/A") = false := by
  refine ⟨by decide, by decide, by decide⟩

/-- Claim C7 as amended: the Numeric Range Validator's `rows_affected`
equals the number of values that coerce successfully to a number and fall
outside the configured range; values nulled because coercion itself
failed (e.g. the string "N/A") are NOT included in the count. -/
theorem C7_rows_affected :
    ∀ (lo hi : Int) (st : LogState), ∃ e : LogEntry,
      (clean_response_time lo hi st).cleaning_log = st.cleaning_log ++ [e]
      ∧ e.rows_affected
          = ((st.clean_data.map (fun r => to_numeric r.response_time_ms)).filterMap
              id).countP (fun v => decide (v < lo) || decide (hi < v)) := by
  intro lo hi st
  refine ⟨_, rfl, ?_⟩
  exact countP_coerced lo hi st.clean_data

/-- Claim C8, counterexample: on a one-row dataset with nothing missing
but a module already equal to "unknown-module", the Fill-Default stage
fills zero values yet logs rows_affected = 1: the count includes values
that already equalled their sentinel, contrary to the claim. -/
theorem C8_counterexample :
    (fill_missing_categories (mkLogState [fillCExRow])).cleaning_log
        = [{ step := 8, rows_before := 1, rows_after := 1, rows_affected := 1 }]
    ∧ missing_category_count [fillCExRow] = 0 := by
  refine ⟨by decide, by decide⟩

/-- The per-row effect of `fill_missing_categories` (the three field
fills composed). -/
def fillAllRow (r : LogRow) : LogRow :=
  { r with
    severity := fillna "Unknown" r.severity,
    module := fillna "unknown-module" r.module,
    environment := fillna "unknown" r.environment }

theorem fill_maps_collapse (l : List LogRow) :
    ((l.map (fun r => { r with severity := fillna "Unknown" r.severity })).map
        (fun r => { r with module := fillna "unknown-module" r.module })).map
        (fun r => { r with environment := fillna "unknown" r.environment })
      = l.map fillAllRow := by
  rw [List.map_map, List.map_map]
  rfl

theorem fill_countP_split (fld : LogRow → PyVal) (lbl : String)
    (hf : ∀ r, fld (fillAllRow r) = fillna lbl (fld r)) (l : List LogRow) :
    (l.map fillAllRow).countP (fun r => fld r == PyVal.vstr lbl)
      = l.countP (fun r => PyVal.isna (fld r))
        + l.countP (fun r => fld r == PyVal.vstr lbl) := by
  rw [List.countP_map]
  have h1 : ((fun r => fld r == PyVal.vstr lbl) ∘ fillAllRow)
      = fun r : LogRow =>
          (PyVal.isna (fld r) || (fld r == PyVal.vstr lbl)) := by
    funext r
    show (fld (fillAllRow r) == PyVal.vstr lbl) = _
    rw [hf r]
    exact fillna_eq_sentinel lbl (fld r)
  rw [h1]
  refine countP_or_split _ _ l ?_
  intro x _ hpq
  cases hx : fld x <;> rw [hx] at hpq <;> simp [PyVal.isna] at hpq

/-- Claim C8 as amended: the Fill-Default stage's `rows_affected` equals
the number of values missing immediately before the stage (the values
actually filled) PLUS the number of values already equal to their
field's sentinel label before the stage ran. -/
theorem C8_rows_affected :
    ∀ st : LogState, ∃ e : LogEntry,
      (fill_missing_categories st).cleaning_log = st.cleaning_log ++ [e]
      ∧ e.rows_affected
          = missing_category_count st.clean_data
            + sentinel_category_count st.clean_data := by
  intro st
  refine ⟨_, rfl, ?_⟩
  show ((((st.clean_data.map
        (fun r => { r with severity := fillna "Unknown" r.severity })).map
        (fun r => { r with module := fillna "unknown-module" r.module })).map
        (fun r => { r with environment := fillna "unknown" r.environment })).countP
        (fun r => r.severity == PyVal.vstr "Unknown"))
      + ((((st.clean_data.map
        (fun r => { r with severity := fillna "Unknown" r.severity })).map
        (fun r => { r with module := fillna "unknown-module" r.module })).map
        (fun r => { r with environment := fillna "unknown" r.environment })).countP
        (fun r => r.module == PyVal.vstr "unknown-module"))
      + ((((st.clean_data.map
        (fun r => { r with severity := fillna "Unknown" r.severity })).map
        (fun r => { r with module := fillna "unknown-module" r.module })).map
        (fun r => { r with environment := fillna "unknown" r.environment })).countP
        (fun r => r.environment == PyVal.vstr "unknown"))
      = missing_category_count st.clean_data
        + sentinel_category_count st.clean_data
  rw [fill_maps_collapse]
  rw [fill_countP_split (fun r => r.severity) "Unknown" (fun r => rfl)]
  rw [fill_countP_split (fun r => r.module) "unknown-module" (fun r => rfl)]
  rw [fill_countP_split (fun r => r.environment) "unknown" (fun r => rfl)]
  rw [missing_category_count, sentinel_category_count]
  omega

/-- Claim C9: on the six-row Scenario A input (severities Critical,
CRITICAL, P1, high, med, med; rows five and six exact whole-record
duplicates), whole-record deduplication keeps 5 rows, and the Categorical
Normalizer then yields severities Critical, Critical, Critical, High,
Medium in that order. -/
theorem C9_scenarioA :
    scenarioA.map (fun r => r.severity)
      = [PyVal.vstr "Critical", PyVal.vstr "CRITICAL", PyVal.vstr "P1",
         PyVal.vstr "high", PyVal.vstr "med", PyVal.vstr "med"]
    ∧ scenarioA.get? 4 = scenarioA.get? 5
    ∧ (remove_duplicates (mkLogState scenarioA)).clean_data.length = 5
    ∧ (standardize_severity (remove_duplicates (mkLogState scenarioA))).clean_data.map
        (fun r => r.severity)
      = [PyVal.vstr "Critical", PyVal.vstr "Critical", PyVal.vstr "Critical",
         PyVal.vstr "High", PyVal.vstr "Medium"] := by
  refine ⟨by decide, by decide, by decide, by decide⟩

/-- The `final_stats` block of `export_lineage`: original row count,
cleaned row count, rows removed. -/
def final_stats (s : LogState) : Nat × Nat × Nat :=
  (s.raw_data.length, s.clean_data.length,
   s.raw_data.length - s.clean_data.length)

/-- Claim C10: `run_full_pipeline` and every one of its stages leave
`raw_data` unchanged — all cleaning happens on the copied `clean_data` —
so the `original_rows` component of the lineage `final_stats` after a run
is the untouched input row count. -/
theorem C10_raw_data_preserved :
    ∀ (ep gp : String → Option TSVal) (s : LogState),
      (run_full_pipeline ep gp s).raw_data = s.raw_data
      ∧ (final_stats (run_full_pipeline ep gp s)).1 = s.raw_data.length
      ∧ (remove_duplicates s).raw_data = s.raw_data
      ∧ (standardize_severity s).raw_data = s.raw_data
      ∧ (standardize_environment s).raw_data = s.raw_data
      ∧ (standardize_timestamps ep gp s).raw_data = s.raw_data
      ∧ (∀ lo hi : Int, (clean_response_time lo hi s).raw_data = s.raw_data)
      ∧ (clean_ip_addresses s).raw_data = s.raw_data
      ∧ (clean_user_ids s).raw_data = s.raw_data
      ∧ (fill_missing_categories s).raw_data = s.raw_data := by
  intro ep gp s
  exact ⟨rfl, rfl, rfl, rfl, rfl, rfl, fun lo hi => rfl, rfl, rfl, rfl⟩
